import Mathlib

/-!
Verification of the session-refresh and permission-resolution core of the
backend (FastAPI service under `backend/app`), as a shallow embedding.

Embedded code:
* `backend/app/api/deps.py` — `get_current_user` (session lookup, credential
  refresh with a 5-minute safety margin, bot authentication);
* `backend/app/api/guilds.py` — `get_guild` (permission-level calculation with
  the Redis membership-cache fallback), `read_guild` (authorized-role
  resolution), `list_guilds` (the per-guild Level-2 decision),
  `add_authorized_user` / `remove_authorized_user` / `add_authorized_role`
  (the grant/revoke mutations and their audit appends);
* `backend/app/models.py` — the `PermissionLevel` enumeration and the record
  shapes of `AuthorizedUser`, `GuildSettings`, `AuditLog`.

Timestamps are modelled as integer seconds (the code compares `datetime`
values; only ordering matters for the verified properties).  Redis string
values are stored as parsed records rather than JSON text: `json.dumps` /
`json.loads` are inverses and every write stores a whole value.
-/

namespace Baseline

/-! ## Session data (deps.py) -/

/-- The credential bundle kept in the Redis value `session:{session_id}`
(`user_data` in `deps.py`).  The auxiliary profile fields (username,
discriminator, avatar) do not influence any verified property and are
omitted; the bundle fields that `get_current_user` reads and writes are
kept. -/
structure SessionData where
  user_id : Nat
  access_token : String
  refresh_token : Option String
  /-- `expires_at`: a POSIX timestamp, `None` for legacy sessions. -/
  expires_at : Option Int
  deriving Repr, DecidableEq

/-- Outcome of the `httpx` POST to the Discord token endpoint
(deps.py lines 87-120): a 200 response with the new bundle fields, a
non-200 response, or a raised transport error. -/
inductive TokenResponse where
  | ok (access_token : String) (refresh_token : Option String) (expires_in : Option Nat)
  | err (statusCode : Nat)
  | netError
  deriving Repr, DecidableEq

/-- The ambient world of one `get_current_user` call: the current time and
what the upstream token endpoint would answer. -/
structure RefreshEnv where
  now : Int
  upstream : TokenResponse
  deriving Repr, DecidableEq

/-- The parsed form of the `Authorization` header (deps.py lines 20-27):
`Bearer <sid>` carries a session id, `Bot <token>` carries a bot token
(the code takes the word after the first space), anything else leaves
`session_id` unset. -/
inductive AuthHeader where
  | missing
  | bearer (sessionId : String)
  | bot (token : String)
  | malformed
  deriving Repr, DecidableEq

/-- The dict returned by `get_current_user`: either the synthetic system
user (deps.py lines 29-36) or the session's `user_data`. -/
inductive CurrentUser where
  | systemBot
  | session (d : SessionData)
  deriving Repr, DecidableEq

/-- `current_user["user_id"]` — the synthetic system user carries id 0. -/
def CurrentUser.user_id : CurrentUser → Nat
  | .systemBot => 0
  | .session d => d.user_id

/-- `current_user.get("system")` — only the synthetic user has the flag. -/
def CurrentUser.system : CurrentUser → Bool
  | .systemBot => true
  | .session _ => false

/-- Result of `get_current_user`: a raised `HTTPException(401, detail)` or a
returned user dict. -/
inductive AuthResult where
  | http401 (detail : String)
  | user (u : CurrentUser)
  deriving Repr, DecidableEq

/-- Full observable outcome of one `get_current_user` call on one session
key: the returned value / raised error, the Redis value of that session key
afterwards, and how many upstream refresh requests were issued. -/
structure GcuOutcome where
  result : AuthResult
  store : Option SessionData
  refreshCalls : Nat
  deriving Repr, DecidableEq

/-- The refresh safety margin: `datetime.timedelta(minutes=5)` (deps.py
line 69), in seconds. -/
def safetyMargin : Int := 300

/-- deps.py lines 65-74: refresh when an expiry is recorded and
`utcnow() > expires_at - 5 minutes`; a legacy session without expiry is
never proactively refreshed. -/
def shouldRefresh (now : Int) (d : SessionData) : Bool :=
  match d.expires_at with
  | some exp => decide (now > exp - safetyMargin)
  | none => false

/-- deps.py lines 90-99: the bundle after a successful (200) refresh.
`expires_in` defaults to 604800 when the response omits it; the new expiry
is `utcnow() + expires_in`. -/
def refreshedBundle (d : SessionData) (now : Int)
    (acc : String) (rt : Option String) (ei : Option Nat) : SessionData :=
  { d with
    access_token := acc
    refresh_token := rt
    expires_at := some (now + (ei.getD 604800 : Nat)) }

/-- Shallow embedding of `get_current_user` (deps.py lines 11-126).

`sess` is the Redis value stored under the session key named by the header
(if any); `store` in the outcome is that value afterwards.  The secondary
write-through to the `users` table (lines 107-112) mirrors the Redis state
and is not part of the session store; it is omitted.

The cookie parameter is accepted and — exactly as in the source — never
read: `session_id` is only ever assigned from the `Authorization` header.

Note the non-200 branch (lines 114-120): the session key is deleted and an
`HTTPException` is raised, but the `raise` sits inside the `try` whose
`except Exception` (lines 121-124) catches and swallows it, so control
falls through to `return user_data` with the stale bundle. -/
def get_current_user (auth : AuthHeader) (_cookie_session_id : Option String)
    (botToken : String) (sess : Option SessionData) (env : RefreshEnv) : GcuOutcome :=
  match auth with
  | .bot tok =>
      if tok = botToken then
        { result := .user .systemBot, store := sess, refreshCalls := 0 }
      else
        -- token mismatch: `session_id` stays unset, line 39 raises 401
        { result := .http401 "Not authenticated", store := sess, refreshCalls := 0 }
  | .bearer _sid =>
      match sess with
      | none =>
          { result := .http401 "Session expired or invalid", store := none, refreshCalls := 0 }
      | some d =>
          if shouldRefresh env.now d && d.refresh_token.isSome then
            match env.upstream with
            | .ok acc rt ei =>
                let d' := refreshedBundle d env.now acc rt ei
                { result := .user (.session d'), store := some d', refreshCalls := 1 }
            | .err _ =>
                -- redis.delete, then the raised 401 is swallowed by the
                -- broad `except`: the call returns the stale `user_data`
                { result := .user (.session d), store := none, refreshCalls := 1 }
            | .netError =>
                -- transient transport error: swallowed, bundle untouched
                { result := .user (.session d), store := some d, refreshCalls := 1 }
          else
            { result := .user (.session d), store := some d, refreshCalls := 0 }
  | .missing =>
      { result := .http401 "Not authenticated", store := sess, refreshCalls := 0 }
  | .malformed =>
      { result := .http401 "Not authenticated", store := sess, refreshCalls := 0 }

example :
    (get_current_user (.bearer "s") none "B"
      (some ⟨1, "a", some "r", some 1200⟩)
      ⟨1000, .ok "a2" (some "r2") (some 0)⟩).store =
    some ⟨1, "a2", some "r2", some 1000⟩ := by decide

example :
    (get_current_user (.bearer "s") none "B"
      (some ⟨1, "a", some "r", some 990⟩)
      ⟨1000, .err 400⟩) =
    ⟨.user (.session ⟨1, "a", some "r", some 990⟩), none, 1⟩ := by decide

/-! ## Guild permission model (models.py, guilds.py) -/

/-- `models.py` lines 33-36: the `PermissionLevel` enumeration. -/
inductive PermissionLevel where
  | OWNER
  | ADMIN
  | USER
  deriving Repr, DecidableEq

/-- `.value` of a `PermissionLevel` member. -/
def PermissionLevel.value : PermissionLevel → String
  | .OWNER => "owner"
  | .ADMIN => "admin"
  | .USER => "user"

/-- A row of the `guilds` table (models.py lines 20-31; fields the embedded
endpoints read). -/
structure GuildRec where
  id : Nat
  owner_id : Nat
  name : String
  icon_url : Option String
  deriving Repr, DecidableEq

/-- The `settings_json` dict of a `guild_settings` row, as the embedded code
reads it: the two Level-2 keys (each possibly absent) plus whether any
other key is present — Python tests the dict's truthiness
(`if settings and settings.settings_json:`), so an empty dict behaves like
a missing row. -/
structure SettingsJson where
  level_2_allow_everyone : Option Bool
  level_2_roles : Option (List String)
  otherKeys : Bool
  deriving Repr, DecidableEq

/-- Python truthiness of the `settings_json` dict: nonempty. -/
def SettingsJson.truthy (s : SettingsJson) : Bool :=
  s.level_2_allow_everyone.isSome || s.level_2_roles.isSome || s.otherKeys

/-- guilds.py lines 96-106 (and 967-971, 1093-1100): the effective Level-2
policy `(allow_everyone, allowed_roles)` read from an optional
`guild_settings` row; both default (`True`, `[]`) when the row is absent,
its json is empty, or the key is missing. -/
def readPolicy (row : Option SettingsJson) : Bool × List String :=
  match row with
  | some s =>
      if s.truthy then
        (s.level_2_allow_everyone.getD true, s.level_2_roles.getD [])
      else (true, [])
  | none => (true, [])

/-- Outcome of `discord_client.get_guild_member` as the endpoints observe
it: a truthy member object carrying a role list, a falsy response, or a
raised exception (member absent / timeout / rate limit). -/
inductive MemberLookup where
  | ok (roles : List String)
  | okFalsy
  | fail
  deriving Repr, DecidableEq

/-- A Redis entry for the key `user_guilds:{user_id}`: the cached list of
guild ids from `/users/@me/guilds`, written by `list_guilds` with
`setex(key, 300, ...)` (guilds.py line 943). -/
structure CacheEntry where
  value : List Nat
  storedAt : Int
  ttl : Nat
  deriving Repr, DecidableEq

/-- Redis `GET` with expiry semantics: a key set with a TTL is gone once
its age reaches the TTL. -/
def redisGetCache (e : Option CacheEntry) (now : Int) : Option (List Nat) :=
  match e with
  | some c => if now < c.storedAt + (c.ttl : Int) then some c.value else none
  | none => none

/-- Response of `get_guild`: 404 (guild not in DB, line 139) or the guild
info with the computed `permission_level`. -/
inductive GuildResponse where
  | notFound
  | ok (permission_level : String)
  deriving Repr, DecidableEq

/-- Shallow embedding of `get_guild` (guilds.py lines 57-146), the first
registered handler of `GET /{guild_id}`.

Inputs are the call's reads: the DB row for `guild_id` (`guild`), the
authenticated user, the result of the absent-from-repo `check_is_admin`
coroutine (imported from `app.api.deps` but defined nowhere under the
repository; modelled as an oracle input — the `or` short-circuits on
system users), the `authorized_users` row for (guild, user), the
`guild_settings` row, the Discord member lookup outcome, and the Redis
`user_guilds:{user_id}` entry with the current time.

The Redis fallback read (lines 124-132) is modelled on its non-raising
path; its own `except` merely leaves the level unchanged, as does a miss. -/
def get_guild (guild_id : Nat) (guild : Option GuildRec) (u : CurrentUser)
    (isAdmin : Bool) (authUser : Option PermissionLevel)
    (settingsRow : Option SettingsJson) (lookup : MemberLookup)
    (cache : Option CacheEntry) (now : Int) : GuildResponse :=
  let user_id := u.user_id
  let permission_level : String :=
    -- 1. Platform admin (line 74); `or` short-circuits on the system flag
    if u.system || isAdmin then "ADMIN"
    -- 2. Guild owner (line 78)
    else if (match guild with | some g => g.owner_id == user_id | none => false) then
      "owner"
    else
      -- 3. Authorized user row (lines 83-92)
      match authUser with
      | some lvl => lvl.value
      | none =>
          -- 4. Level-2 access (lines 94-133); settings only read `if guild:`
          let policy := if guild.isSome then readPolicy settingsRow else (true, [])
          match lookup with
          | .ok user_roles =>
              if policy.1 then "LEVEL_2"
              else if user_roles.any (fun r => policy.2.contains r) then "LEVEL_2"
              else "PUBLIC"
          | .okFalsy => "PUBLIC"
          | .fail =>
              -- fallback to the cached user-guild list, only when
              -- allow_everyone is true (lines 121-133)
              if policy.1 then
                match redisGetCache cache now with
                | some gl => if gl.contains guild_id then "LEVEL_2" else "PUBLIC"
                | none => "PUBLIC"
              else "PUBLIC"
  match guild with
  | none => .notFound
  | some _ => .ok permission_level

/-- The Level-2 ordering of the permission strings the endpoints produce
(spec tier chain restricted to levels the code emits): `"PUBLIC"` is the
bottom "no access" tier, `"ADMIN"` (platform admin / system) the top. -/
def levelRank (s : String) : Nat :=
  if s = "LEVEL_2" then 1
  else if s = "user" then 2
  else if s = "admin" then 3
  else if s = "owner" then 4
  else if s = "ADMIN" then 5
  else 0

/-- Per-guild distillation of `list_guilds` (guilds.py lines 899-1000) for
one DB guild `g`, assuming the Discord (or cached) user-guild list fetch
succeeded and produced `userGuildIds`: the dict built on line 925 maps a
guild the user is authorized for to that level — an `authorized_users` row
overwrites the owner entry because `authorized_guilds` comes second in the
concatenation — then members of `userGuildIds` gain `LEVEL_2` exactly when
the guild's policy allows everyone (the role-restricted branch, lines
976-989, deliberately grants nothing in the list view). -/
def list_guilds_entry (g : GuildRec) (user_id : Nat)
    (authLevel : Option PermissionLevel) (userGuildIds : List Nat)
    (settingsRow : Option SettingsJson) : Option String :=
  match authLevel with
  | some lvl => some lvl.value
  | none =>
      if g.owner_id = user_id then some "owner"
      else if userGuildIds.contains g.id then
        if (readPolicy settingsRow).1 then some "LEVEL_2" else none
      else none

/-! ## `read_guild` and authorized-role resolution (guilds.py 1031-1156) -/

/-- A row of authorized roles as `read_guild` and `add_authorized_role`
use it (the SQLAlchemy model is absent from `models.py`; the shape follows
the `AuthorizedRole` pydantic schema in `schemas.py` lines 55-63 and the
constructor call in guilds.py lines 700-705). -/
structure AuthRole where
  guild_id : Nat
  role_id : String
  permission_level : PermissionLevel
  created_at : Int
  created_by : Nat
  deriving Repr, DecidableEq

/-- Response of `read_guild`: 404, 403, or the guild with its computed
`permission_level`. -/
inductive ReadGuildResult where
  | notFound
  | forbidden
  | ok (permission_level : String)
  deriving Repr, DecidableEq

/-- The Level-2 fallback of `read_guild` (guilds.py lines 1088-1122, and
its inlined copy at 1128-1154): allow-everyone grants `LEVEL_2`; otherwise
a fresh member fetch (`lookup2`) must intersect `level_2_roles`, any
failure denying with 403.  A falsy member object yields
`member_data.get("roles", []) = []`. -/
def readGuildL2 (settingsRow : Option SettingsJson) (lookup2 : MemberLookup) :
    ReadGuildResult :=
  let policy := readPolicy settingsRow
  if policy.1 then .ok "LEVEL_2"
  else
    let user_roles : Option (List String) :=
      match lookup2 with
      | .ok rs => some rs
      | .okFalsy => some []
      | .fail => none
    match user_roles with
    | some rs =>
        if policy.2.any (fun r => rs.contains r) then .ok "LEVEL_2" else .forbidden
    | none => .forbidden

/-- Shallow embedding of `read_guild` (guilds.py lines 1031-1156), the
second (shadowed) handler of `GET /{guild_id}`.

`authRoles` is the result of the `AuthorizedRole` select for this guild
(line 1061, no ORDER BY: the stored row order).  On a successful member
fetch the code scans `auth_roles` and `break`s at the *first* row whose
`role_id` the member holds (lines 1074-1080); with no match it raises
`Exception("Check L2")`, which the surrounding `except` turns into the
Level-2 fallback, the same fallback any fetch failure takes.  The fallback
may fetch the member again: `lookup2`. -/
def read_guild (guild : Option GuildRec) (user_id : Nat)
    (authUser : Option PermissionLevel) (authRoles : List AuthRole)
    (lookup : MemberLookup) (settingsRow : Option SettingsJson)
    (lookup2 : MemberLookup) : ReadGuildResult :=
  match guild with
  | none => .notFound
  | some g =>
      if g.owner_id = user_id then .ok "owner"
      else
        match authUser with
        | some lvl => .ok lvl.value
        | none =>
            if authRoles.isEmpty then readGuildL2 settingsRow lookup2
            else
              match lookup with
              | .ok user_roles =>
                  match authRoles.find? (fun ar => user_roles.contains ar.role_id) with
                  | some ar => .ok ar.permission_level.value
                  | none => readGuildL2 settingsRow lookup2
              | .okFalsy => readGuildL2 settingsRow lookup2
              | .fail => readGuildL2 settingsRow lookup2

/-- Spec tier rank of the explicit-grant levels (Owner > ExplicitAdmin >
ExplicitUser). -/
def tierRank : PermissionLevel → Nat
  | .OWNER => 3
  | .ADMIN => 2
  | .USER => 1

/-- Modelled from the spec: the record-selection rule of §4.3 step 5 — "if
multiple role records match, take the highest tier, tie-broken by earliest
`createdAt`" — stated over the same inputs as the code's scan, for
comparison with `read_guild`. -/
def specRolePick (authRoles : List AuthRole) (user_roles : List String) :
    Option AuthRole :=
  let matched := authRoles.filter (fun ar => user_roles.contains ar.role_id)
  matched.foldl
    (fun best ar =>
      match best with
      | none => some ar
      | some b =>
          if tierRank ar.permission_level > tierRank b.permission_level then some ar
          else if tierRank ar.permission_level = tierRank b.permission_level
                  ∧ ar.created_at < b.created_at then some ar
          else some b)
    none

/-! ## Grant/revoke mutations and audit (guilds.py 421-776) -/

/-- A row of the `users` table (models.py lines 8-18; fields the embedded
endpoints write). -/
structure UserRec where
  id : Nat
  username : String
  discriminator : String
  avatar_url : Option String
  deriving Repr, DecidableEq

/-- A row of `authorized_users` (models.py lines 38-49); `permission_level`
has column default `USER`. -/
structure AuthUserRec where
  guild_id : Nat
  user_id : Nat
  permission_level : PermissionLevel
  created_by : Nat
  deriving Repr, DecidableEq

/-- A row of `audit_logs` as the endpoints construct it (`AuditLog(...)`
calls; the SQLAlchemy model is absent from `models.py`, the shape follows
the `AuditLog` pydantic schema in `schemas.py` lines 82-94): actor, action
string and the `details` dict as key/value pairs. -/
structure AuditRec where
  guild_id : Nat
  user_id : Nat
  action : String
  details : List (String × String)
  deriving Repr, DecidableEq

/-- The relational state the mutation endpoints touch. -/
structure DbState where
  users : List UserRec
  authorized_users : List AuthUserRec
  authorized_roles : List AuthRole
  audit_logs : List AuditRec
  deriving Repr, DecidableEq

/-- The pending writes a handler stages with `db.add` / `db.delete` before
its single `await db.commit()`. -/
structure PendingTx where
  newUsers : List UserRec
  newAuthUsers : List AuthUserRec
  delAuthUsers : List AuthUserRec
  newAuthRoles : List AuthRole
  delAuthRoles : List AuthRole
  newLogs : List AuditRec
  deriving Repr, DecidableEq

/-- Applying a staged transaction to the database. -/
def applyTx (db : DbState) (tx : PendingTx) : DbState :=
  { users := db.users ++ tx.newUsers
    authorized_users :=
      (db.authorized_users.filter (fun r => ¬ tx.delAuthUsers.contains r)) ++ tx.newAuthUsers
    authorized_roles :=
      (db.authorized_roles.filter (fun r => ¬ tx.delAuthRoles.contains r)) ++ tx.newAuthRoles
    audit_logs := db.audit_logs ++ tx.newLogs }

/-- `await db.commit()`: the staged writes — the authority mutation and its
audit-log `INSERT` together — are applied atomically, or (when any write in
the transaction fails, e.g. the audit insert) the whole transaction is
rolled back and the database is unchanged. -/
def commitTx (db : DbState) (tx : PendingTx) (commitOk : Bool) : DbState :=
  if commitOk then applyTx db tx else db

/-- An `HTTPException` as (status code, detail). -/
abbrev HttpError := Nat × String

/-- The `authorized_users` select keyed on (guild, user) that every
mutation endpoint runs for its permission check. -/
def findAuthUser (db : DbState) (gid uid : Nat) : Option AuthUserRec :=
  db.authorized_users.find? (fun r => r.guild_id == gid && r.user_id == uid)

/-- The requester permission check shared by the mutation endpoints
(guilds.py lines 438-458, 554-574, 663-677): the guild owner passes;
otherwise an `authorized_users` row with level `ADMIN` is required. -/
def mutationPermCheck (guild_id : Nat) (g : GuildRec) (user_id : Nat)
    (db : DbState) (notAuthDetail onlyAdminDetail : String) : Option HttpError :=
  if g.owner_id = user_id then none
  else
    match findAuthUser db guild_id user_id with
    | none => some (403, notAuthDetail)
    | some auth_user =>
        if auth_user.permission_level ≠ PermissionLevel.ADMIN then
          some (403, onlyAdminDetail)
        else none

/-- Shallow embedding of `add_authorized_user` (guilds.py lines 421-536):
either an HTTP error or the transaction staged before the single
`await db.commit()` on line 534.  `stubProfile` is the
(username, discriminator, avatar) triple produced by the Discord fetch
chain of lines 480-505 when the target user has no row yet. -/
def add_authorized_user (guild_id : Nat) (req_user_id : Nat)
    (current : CurrentUser) (guild : Option GuildRec) (db : DbState)
    (stubProfile : String × String × Option String) :
    Except HttpError PendingTx :=
  let user_id := current.user_id
  match guild with
  | none => .error (404, "Guild not found")
  | some g =>
      match mutationPermCheck guild_id g user_id db
          "You do not have permission to add users" "Only admins can add users" with
      | some e => .error e
      | none =>
          match findAuthUser db guild_id req_user_id with
          | some _ => .error (400, "User is already authorized for this guild")
          | none =>
              let newUsers :=
                if db.users.any (fun u => u.id == req_user_id) then []
                else [⟨req_user_id, stubProfile.1, stubProfile.2.1, stubProfile.2.2⟩]
              .ok
                { newUsers := newUsers
                  newAuthUsers :=
                    [{ guild_id := guild_id, user_id := req_user_id,
                       permission_level := .USER, created_by := user_id }]
                  delAuthUsers := []
                  newAuthRoles := []
                  delAuthRoles := []
                  newLogs :=
                    [{ guild_id := guild_id, user_id := user_id,
                       action := "ADD_AUTHORIZED_USER",
                       details := [("added_user_id", toString req_user_id)] }] }

/-- Shallow embedding of `remove_authorized_user` (guilds.py lines
538-609): either an HTTP error or the transaction staged before the single
`await db.commit()` on line 607. -/
def remove_authorized_user (guild_id : Nat) (target_user_id : Nat)
    (current : CurrentUser) (guild : Option GuildRec) (db : DbState) :
    Except HttpError PendingTx :=
  let current_user_id := current.user_id
  match guild with
  | none => .error (404, "Guild not found")
  | some g =>
      match mutationPermCheck guild_id g current_user_id db
          "You do not have permission to remove users" "Only admins can remove users" with
      | some e => .error e
      | none =>
          match findAuthUser db guild_id target_user_id with
          | none => .error (404, "User is not authorized for this guild")
          | some target_auth =>
              if target_user_id = g.owner_id then
                .error (400, "Cannot remove the guild owner")
              else
                .ok
                  { newUsers := []
                    newAuthUsers := []
                    delAuthUsers := [target_auth]
                    newAuthRoles := []
                    delAuthRoles := []
                    newLogs :=
                      [{ guild_id := guild_id, user_id := current_user_id,
                         action := "REMOVE_AUTHORIZED_USER",
                         details := [("removed_user_id", toString target_user_id)] }] }

/-- The `AuthorizedRole` select keyed on (guild, role) that both role
mutation endpoints run (guilds.py lines 687-692 and 753-758,
`scalar_one_or_none`). -/
def findAuthRole (db : DbState) (gid : Nat) (rid : String) : Option AuthRole :=
  db.authorized_roles.find? (fun r => r.guild_id == gid && r.role_id == rid)

/-- Shallow embedding of `add_authorized_role` (guilds.py lines 647-718):
either an HTTP error or the transaction staged before the single
`await db.commit()` on line 717.  Every inserted role record carries
`permission_level = PermissionLevel.USER` (line 704); `created_at` is the
database's insertion timestamp. -/
def add_authorized_role (guild_id : Nat) (req_role_id : String)
    (current : CurrentUser) (guild : Option GuildRec) (db : DbState)
    (dbNow : Int) : Except HttpError PendingTx :=
  let user_id := current.user_id
  match guild with
  | none => .error (404, "Guild not found")
  | some g =>
      match mutationPermCheck guild_id g user_id db
          "Only admins can add authorized roles" "Only admins can add authorized roles" with
      | some e => .error e
      | none =>
          if req_role_id = toString guild_id then
            .error (400, "The @everyone role cannot be used for Level 3 access.")
          else
            match findAuthRole db guild_id req_role_id with
            | some _ => .error (400, "Role is already authorized")
            | none =>
                .ok
                  { newUsers := []
                    newAuthUsers := []
                    delAuthUsers := []
                    newAuthRoles :=
                      [{ guild_id := guild_id, role_id := req_role_id,
                         permission_level := .USER, created_at := dbNow,
                         created_by := user_id }]
                    delAuthRoles := []
                    newLogs :=
                      [{ guild_id := guild_id, user_id := user_id,
                         action := "ADD_AUTHORIZED_ROLE",
                         details := [("role_id", req_role_id)] }] }

/-- Shallow embedding of `remove_authorized_role` (guilds.py lines
720-776): either an HTTP error or the transaction staged before the single
`await db.commit()` on line 775.  The permission check (lines 735-750) is
the same combined owner-or-admin test as in `add_authorized_role`; unlike
user removal there is no owner guard. -/
def remove_authorized_role (guild_id : Nat) (role_id : String)
    (current : CurrentUser) (guild : Option GuildRec) (db : DbState) :
    Except HttpError PendingTx :=
  let user_id := current.user_id
  match guild with
  | none => .error (404, "Guild not found")
  | some g =>
      match mutationPermCheck guild_id g user_id db
          "Only admins can remove authorized roles"
          "Only admins can remove authorized roles" with
      | some e => .error e
      | none =>
          match findAuthRole db guild_id role_id with
          | none => .error (404, "Role not authorized")
          | some target_auth =>
              .ok
                { newUsers := []
                  newAuthUsers := []
                  delAuthUsers := []
                  newAuthRoles := []
                  delAuthRoles := [target_auth]
                  newLogs :=
                    [{ guild_id := guild_id, user_id := user_id,
                       action := "REMOVE_AUTHORIZED_ROLE",
                       details := [("role_id", role_id)] }] }

/-! ## Two concurrent `get_current_user` calls on one session token

deps.py acquires no lock around the refresh: each request task reads the
session (`await redis.get`, line 46), later decides from its own copy
whether to refresh, and on refresh POSTs upstream and overwrites the key
(`await redis.setex`, line 102).  The machine below interleaves two such
tasks at their `await` points.  A task is two atomic phases: the session
read, and the decide/refresh/write block (splitting the POST from the
write adds no outcome: a peer reading between them sees the same
pre-refresh value it would see before the POST).  Redis `GET`/`SETEX` act
on the whole value, so every stored value is a whole bundle. -/

structure RaceState where
  /-- the Redis value of the shared session key -/
  store : Option SessionData
  /-- phase of task A: 0 = about to read, 1 = read done, 2 = returned -/
  pcA : Nat
  pcB : Nat
  /-- task A's local `user_data` copy (none before its read) -/
  localA : Option SessionData
  localB : Option SessionData
  /-- upstream refresh POSTs issued so far -/
  refreshCalls : Nat
  deriving Repr, DecidableEq

/-- One atomic phase of one task (`who = true` is task A), mirroring
`get_current_user` lines 46-112 with a 200 upstream response. -/
def raceStep (env : RefreshEnv) (who : Bool) (s : RaceState) : RaceState :=
  let pc := if who then s.pcA else s.pcB
  let loc := if who then s.localA else s.localB
  match pc with
  | 0 =>
      -- line 46: read the session value into the task's local copy
      if who then { s with pcA := 1, localA := s.store }
      else { s with pcB := 1, localB := s.store }
  | 1 =>
      match loc with
      | none =>
          -- empty store: the task raises 401 and is done
          if who then { s with pcA := 2 } else { s with pcB := 2 }
      | some d =>
          if shouldRefresh env.now d && d.refresh_token.isSome then
            match env.upstream with
            | .ok acc rt ei =>
                let d' := refreshedBundle d env.now acc rt ei
                if who then
                  { s with pcA := 2, localA := some d', store := some d',
                           refreshCalls := s.refreshCalls + 1 }
                else
                  { s with pcB := 2, localB := some d', store := some d',
                           refreshCalls := s.refreshCalls + 1 }
            | .err _ =>
                if who then
                  { s with pcA := 2, store := none,
                           refreshCalls := s.refreshCalls + 1 }
                else
                  { s with pcB := 2, store := none,
                           refreshCalls := s.refreshCalls + 1 }
            | .netError =>
                if who then { s with pcA := 2, refreshCalls := s.refreshCalls + 1 }
                else { s with pcB := 2, refreshCalls := s.refreshCalls + 1 }
          else
            if who then { s with pcA := 2 } else { s with pcB := 2 }
  | _ => s

/-- Run the two tasks under a given interleaving (each list entry names the
task that executes its next atomic phase). -/
def runRace (env : RefreshEnv) (schedule : List Bool) (s : RaceState) : RaceState :=
  schedule.foldl (fun st w => raceStep env w st) s

/-- The initial state: the shared key holds the bundle `d0`, neither task
has started. -/
def raceInit (d0 : SessionData) : RaceState :=
  { store := some d0, pcA := 0, pcB := 0, localA := none, localB := none,
    refreshCalls := 0 }

/-! ## Theorems -/

/-- C9: `get_current_user` accepts a `session_id` cookie parameter but never
reads it — the whole outcome is independent of the cookie value, and a
request with no `Authorization` header is rejected with 401
"Not authenticated" even when the store holds a live session, which is
left untouched. -/
theorem C9_cookie_credential_rejected :
    ∀ (c1 c2 : Option String) (auth : AuthHeader) (botToken : String)
      (sess : Option SessionData) (env : RefreshEnv),
      get_current_user auth c1 botToken sess env =
        get_current_user auth c2 botToken sess env ∧
      (get_current_user .missing c1 botToken sess env).result =
        .http401 "Not authenticated" ∧
      (get_current_user .missing c1 botToken sess env).store = sess := by
  intro c1 c2 auth botToken sess env
  exact ⟨rfl, rfl, rfl⟩

/-- C2: demonstration of the divergence at the failing input.  Session
`⟨7, "acc", some "rt", some 990⟩` expired 10 seconds before `now = 1000`
and the upstream refresh is rejected with status 400: the session IS
deleted from the store, but — because the `raise HTTPException` on
deps.py line 117 is swallowed by the `except Exception` on line 121 — the
current call returns the stale credential bundle instead of raising 401 as
the spec demands. -/
theorem C2_rejected_refresh_proceeds_stale :
    (get_current_user (.bearer "s") none "B"
        (some ⟨7, "acc", some "rt", some 990⟩) ⟨1000, .err 400⟩).store = none ∧
    (get_current_user (.bearer "s") none "B"
        (some ⟨7, "acc", some "rt", some 990⟩) ⟨1000, .err 400⟩).result =
      .user (.session ⟨7, "acc", some "rt", some 990⟩) := by
  decide

/-- C7 counterexample: a successful refresh (status 200, one upstream call,
session overwritten) whose response reports `expires_in = 0` stores expiry
1000, strictly below the expiry 1200 it replaces — the claimed monotonicity
fails as stated. -/
theorem C7_counterexample_expiry_decreases :
    (get_current_user (.bearer "s") none "B"
        (some ⟨1, "a", some "r", some 1200⟩)
        ⟨1000, .ok "a2" (some "r2") (some 0)⟩) =
      { result := .user (.session ⟨1, "a2", some "r2", some 1000⟩),
        store := some ⟨1, "a2", some "r2", some 1000⟩, refreshCalls := 1 } ∧
    (1000 : Int) < 1200 := by
  decide

/-- C7 amended: after every successful refresh whose reported credential
lifetime `expires_in` (default 604800 when omitted) is at least the
5-minute safety margin, the expiry stored in the session is at least the
expiry it replaces.  (The counterexample shows the restriction on
`expires_in` is necessary.) -/
theorem C7_expiry_monotone (sid : String) (cookie : Option String)
    (botToken : String) (d : SessionData) (acc : String) (rt' : Option String)
    (ei : Option Nat) (now oldExp : Int)
    (hexp : d.expires_at = some oldExp)
    (hrt : d.refresh_token.isSome = true)
    (hsr : shouldRefresh now d = true)
    (hei : 300 ≤ ei.getD 604800) :
    (get_current_user (.bearer sid) cookie botToken (some d)
        ⟨now, .ok acc rt' ei⟩).store = some (refreshedBundle d now acc rt' ei) ∧
    ∃ newExp, (refreshedBundle d now acc rt' ei).expires_at = some newExp ∧
      oldExp ≤ newExp := by
  refine ⟨by simp [get_current_user, hsr, hrt], now + (ei.getD 604800 : Nat), rfl, ?_⟩
  rw [shouldRefresh, hexp] at hsr
  simp only [safetyMargin, decide_eq_true_eq] at hsr
  omega

/-- Witness for `C7_expiry_monotone` at a concrete refresh. -/
theorem C7_expiry_monotone_witness :
    (get_current_user (.bearer "s") none "B"
        (some ⟨1, "a", some "r", some 1200⟩)
        ⟨1000, .ok "a2" (some "r2") (some 604800)⟩).store =
      some (refreshedBundle ⟨1, "a", some "r", some 1200⟩ 1000 "a2" (some "r2")
        (some 604800)) ∧
    ∃ newExp,
      (refreshedBundle ⟨1, "a", some "r", some 1200⟩ 1000 "a2" (some "r2")
        (some 604800)).expires_at = some newExp ∧ (1200 : Int) ≤ newExp :=
  C7_expiry_monotone "s" none "B" ⟨1, "a", some "r", some 1200⟩ "a2" (some "r2")
    (some 604800) 1000 1200 rfl rfl (by decide) (by decide)

/-- C6: a request authenticated with the system credential (`Bot <token>`
with the configured bot token) yields the synthetic system user without
touching the session store or the upstream refresh endpoint, and
`get_guild`'s permission calculation for that user is always `"ADMIN"` —
the top of the level order — independent of guild record, settings, role
records, membership lookup outcome and cache state. -/
theorem C6_system_credential_always_top :
    ∀ (cookie : Option String) (botToken : String) (sess : Option SessionData)
      (env : RefreshEnv) (guild_id : Nat) (g : GuildRec) (isAdmin : Bool)
      (authUser : Option PermissionLevel) (settingsRow : Option SettingsJson)
      (lookup : MemberLookup) (cache : Option CacheEntry) (now : Int),
      get_current_user (.bot botToken) cookie botToken sess env =
        { result := .user .systemBot, store := sess, refreshCalls := 0 } ∧
      get_guild guild_id (some g) .systemBot isAdmin authUser settingsRow
        lookup cache now = .ok "ADMIN" ∧
      get_guild guild_id none .systemBot isAdmin authUser settingsRow
        lookup cache now = .notFound ∧
      (∀ s, levelRank s ≤ levelRank "ADMIN") := by
  intro cookie botToken sess env guild_id g isAdmin authUser settingsRow lookup cache now
  refine ⟨by simp [get_current_user], by simp [get_guild, CurrentUser.system],
    by simp [get_guild], ?_⟩
  intro s
  have h5 : levelRank "ADMIN" = 5 := by decide
  rw [h5]
  unfold levelRank
  repeat' split
  all_goals omega

/-- C3: under the policy `{allowEveryone: false, allowedRoleIds: ["R9"]}`,
a non-owner subject (not a platform admin, no authorized-user row) whose
confirmed tenant roles include R9 resolves to `LEVEL_2`; a subject with
roles `["R1"]` resolves to `"PUBLIC"` — the bottom level, rank 0, granting
nothing — and so does a subject whose membership lookup fails (no
fallback is consulted when allowEveryone is false). -/
theorem C3_restricted_role_policy (guild_id : Nat) (g : GuildRec)
    (d : SessionData) (cache : Option CacheEntry) (now : Int)
    (hown : g.owner_id ≠ d.user_id) :
    (get_guild guild_id (some g) (.session d) false none
        (some ⟨some false, some ["R9"], false⟩) (.ok ["R9"]) cache now =
      .ok "LEVEL_2") ∧
    (get_guild guild_id (some g) (.session d) false none
        (some ⟨some false, some ["R9"], false⟩) (.ok ["R1"]) cache now =
      .ok "PUBLIC") ∧
    (get_guild guild_id (some g) (.session d) false none
        (some ⟨some false, some ["R9"], false⟩) .fail cache now =
      .ok "PUBLIC") ∧
    levelRank "PUBLIC" = 0 := by
  have hbeq : (g.owner_id == d.user_id) = false := by
    simp [hown]
  refine ⟨?_, ?_, ?_, by decide⟩ <;>
    simp [get_guild, CurrentUser.system, CurrentUser.user_id, hbeq,
      readPolicy, SettingsJson.truthy]

/-- Witness for `C3_restricted_role_policy`: tenant 5 owned by user 1,
subject is user 2. -/
theorem C3_restricted_role_policy_witness :
    (get_guild 5 (some ⟨5, 1, "T", none⟩) (.session ⟨2, "a", none, none⟩) false
        none (some ⟨some false, some ["R9"], false⟩) (.ok ["R9"]) none 0 =
      .ok "LEVEL_2") ∧
    (get_guild 5 (some ⟨5, 1, "T", none⟩) (.session ⟨2, "a", none, none⟩) false
        none (some ⟨some false, some ["R9"], false⟩) (.ok ["R1"]) none 0 =
      .ok "PUBLIC") ∧
    (get_guild 5 (some ⟨5, 1, "T", none⟩) (.session ⟨2, "a", none, none⟩) false
        none (some ⟨some false, some ["R9"], false⟩) .fail none 0 =
      .ok "PUBLIC") ∧
    levelRank "PUBLIC" = 0 :=
  C3_restricted_role_policy 5 ⟨5, 1, "T", none⟩ ⟨2, "a", none, none⟩ none 0
    (by decide)

/-- C5: with `allowEveryone = true`, a failed membership lookup is served
from the Redis `user_guilds` cache written with a 300-second TTL: an entry
younger than the TTL that lists the guild yields `LEVEL_2`; an entry whose
age has reached the TTL has expired from Redis (e.g. the 10-minute-old
snapshot of the scenario), and an absent entry likewise, so the subject
gets the bottom level `"PUBLIC"`. -/
theorem C5_membership_cache_fallback (guild_id : Nat) (g : GuildRec)
    (d : SessionData) (settingsRow : Option SettingsJson)
    (gl : List Nat) (t0 now : Int)
    (hown : g.owner_id ≠ d.user_id)
    (hpol : (readPolicy settingsRow).1 = true)
    (hin : guild_id ∈ gl) :
    (now < t0 + 300 →
      get_guild guild_id (some g) (.session d) false none settingsRow .fail
        (some ⟨gl, t0, 300⟩) now = .ok "LEVEL_2") ∧
    (t0 + 300 ≤ now →
      get_guild guild_id (some g) (.session d) false none settingsRow .fail
        (some ⟨gl, t0, 300⟩) now = .ok "PUBLIC") ∧
    get_guild guild_id (some g) (.session d) false none settingsRow .fail
      none now = .ok "PUBLIC" := by
  have hbeq : (g.owner_id == d.user_id) = false := by
    simp [hown]
  refine ⟨fun hfresh => ?_, fun hstale => ?_, ?_⟩
  · simp [get_guild, CurrentUser.system, CurrentUser.user_id, hbeq, hpol,
      redisGetCache, hin, hfresh]
  · simp [get_guild, CurrentUser.system, CurrentUser.user_id, hbeq, hpol,
      redisGetCache, hin, show ¬ (now < t0 + 300) from by omega]
  · simp [get_guild, CurrentUser.system, CurrentUser.user_id, hbeq, hpol,
      redisGetCache]

/-- Witness for `C5_membership_cache_fallback`: cache entry aged 4 minutes
(stored at 0, read at 240) listing guild 5. -/
theorem C5_membership_cache_fallback_witness :
    ((240 : Int) < 0 + 300 →
      get_guild 5 (some ⟨5, 1, "T", none⟩) (.session ⟨2, "a", none, none⟩) false
        none none .fail (some ⟨[5], 0, 300⟩) 240 = .ok "LEVEL_2") ∧
    ((0 : Int) + 300 ≤ 240 →
      get_guild 5 (some ⟨5, 1, "T", none⟩) (.session ⟨2, "a", none, none⟩) false
        none none .fail (some ⟨[5], 0, 300⟩) 240 = .ok "PUBLIC") ∧
    get_guild 5 (some ⟨5, 1, "T", none⟩) (.session ⟨2, "a", none, none⟩) false
      none none .fail none 240 = .ok "PUBLIC" :=
  C5_membership_cache_fallback 5 ⟨5, 1, "T", none⟩ ⟨2, "a", none, none⟩ none
    [5] 0 240 (by decide) (by decide) (by decide)

/-- A missing `guild_settings` row, and equally a row whose json lacks the
`level_2_allow_everyone` key, reads as `allow_everyone = True`. -/
lemma readPolicy_default_fst (settingsRow : Option SettingsJson)
    (h : settingsRow = none ∨
      ∃ s, settingsRow = some s ∧ s.level_2_allow_everyone = none) :
    (readPolicy settingsRow).1 = true := by
  rcases h with rfl | ⟨s, rfl, hs⟩
  · rfl
  · simp only [readPolicy, hs]
    split <;> simp

/-- C10: when the tenant has no stored `GuildSettings` row, or its settings
json lacks the `level_2_allow_everyone` key, the policy defaults to
allow-everyone, and every subject whose membership is confirmed resolves to
a level of rank at least `LEVEL_2` — in `get_guild` (for any subject kind:
system, platform admin, owner, authorized, or plain member) and in the
`list_guilds` per-guild decision (guild present in the member's guild
list). -/
theorem C10_default_policy_grants_members (guild_id : Nat) (g : GuildRec)
    (u : CurrentUser) (isAdmin : Bool) (authUser : Option PermissionLevel)
    (settingsRow : Option SettingsJson) (user_roles : List String)
    (cache : Option CacheEntry) (now : Int) (userGuildIds : List Nat)
    (hdefault : settingsRow = none ∨
      ∃ s, settingsRow = some s ∧ s.level_2_allow_everyone = none) :
    (∃ pl, get_guild guild_id (some g) u isAdmin authUser settingsRow
        (.ok user_roles) cache now = .ok pl ∧
      levelRank "LEVEL_2" ≤ levelRank pl) ∧
    (g.id ∈ userGuildIds →
      ∃ pl, list_guilds_entry g u.user_id authUser userGuildIds settingsRow =
        some pl ∧ levelRank "LEVEL_2" ≤ levelRank pl) := by
  have hpol := readPolicy_default_fst settingsRow hdefault
  constructor
  · by_cases h1 : (u.system || isAdmin) = true
    · exact ⟨"ADMIN", by simp [get_guild, h1], by decide⟩
    · by_cases h2 : (g.owner_id == u.user_id) = true
      · exact ⟨"owner", by simp [get_guild, h1, h2], by decide⟩
      · cases authUser with
        | some lvl =>
            exact ⟨lvl.value, by simp [get_guild, h1, h2],
              by cases lvl <;> decide⟩
        | none =>
            exact ⟨"LEVEL_2", by simp [get_guild, h1, h2, hpol], le_refl _⟩
  · intro hmem
    cases authUser with
    | some lvl =>
        exact ⟨lvl.value, by simp [list_guilds_entry], by cases lvl <;> decide⟩
    | none =>
        by_cases h2 : g.owner_id = u.user_id
        · exact ⟨"owner", by simp [list_guilds_entry, h2], by decide⟩
        · exact ⟨"LEVEL_2", by simp [list_guilds_entry, h2, hmem, hpol],
            le_refl _⟩

/-- Witness for `C10_default_policy_grants_members`: no settings row at
all, a plain member (user 2) of guild 5 owned by user 1. -/
theorem C10_default_policy_grants_members_witness :
    (∃ pl, get_guild 5 (some ⟨5, 1, "T", none⟩) (.session ⟨2, "a", none, none⟩)
        false none none (.ok []) none 0 = .ok pl ∧
      levelRank "LEVEL_2" ≤ levelRank pl) ∧
    ((5 : Nat) ∈ [5] →
      ∃ pl, list_guilds_entry ⟨5, 1, "T", none⟩
          (CurrentUser.session ⟨2, "a", none, none⟩).user_id none [5] none =
        some pl ∧ levelRank "LEVEL_2" ≤ levelRank pl) :=
  C10_default_policy_grants_members 5 ⟨5, 1, "T", none⟩
    (.session ⟨2, "a", none, none⟩) false none none [] none 0 [5] (Or.inl rfl)

/-- C4 counterexample: in tenant 5 the subject (user 2, not the owner)
holds both stored role records; the first row `(R1, tier user, createdAt
10)` is returned by `read_guild`'s scan, although the spec's selection rule
picks the second `(R2, tier admin, createdAt 5)` — both the higher tier and
the earlier `createdAt`. -/
theorem C4_counterexample_first_match_not_highest :
    read_guild (some ⟨5, 1, "T", none⟩) 2 none
        [⟨5, "R1", .USER, 10, 1⟩, ⟨5, "R2", .ADMIN, 5, 1⟩]
        (.ok ["R1", "R2"]) none .fail = .ok "user" ∧
    specRolePick [⟨5, "R1", .USER, 10, 1⟩, ⟨5, "R2", .ADMIN, 5, 1⟩]
        ["R1", "R2"] = some ⟨5, "R2", .ADMIN, 5, 1⟩ ∧
    PermissionLevel.USER.value ≠ PermissionLevel.ADMIN.value := by
  decide

/-- C4 amended: when a subject matches several role-keyed authority
records, resolution returns the *first* matching record in the order the
rows come back from the store (no highest-tier or earliest-createdAt
selection); moreover every role record `add_authorized_role` inserts
carries tier `USER`, so stored tiers cannot differ in practice. -/
theorem C4_first_matching_record (g : GuildRec) (user_id : Nat)
    (authRoles : List AuthRole) (user_roles : List String)
    (settingsRow : Option SettingsJson) (lookup2 : MemberLookup)
    (ar : AuthRole)
    (hown : g.owner_id ≠ user_id)
    (hfind : authRoles.find? (fun a => user_roles.contains a.role_id) =
      some ar) :
    read_guild (some g) user_id none authRoles (.ok user_roles) settingsRow
      lookup2 = .ok ar.permission_level.value ∧
    ∀ gid rid cur guild db dbNow tx,
      add_authorized_role gid rid cur guild db dbNow = .ok tx →
      ∀ r ∈ tx.newAuthRoles, r.permission_level = .USER := by
  constructor
  · have hne : authRoles.isEmpty = false := by
      cases authRoles with
      | nil => simp at hfind
      | cons a l => rfl
    have hfind' : authRoles.find? (fun a => decide (a.role_id ∈ user_roles)) =
        some ar := by
      simpa using hfind
    unfold read_guild
    simp [hown, hne, hfind']
  · intro gid rid cur guild db dbNow tx htx r hr
    unfold add_authorized_role at htx
    split at htx
    · simp at htx
    · rename_i gg
      cases hmp : mutationPermCheck gid gg cur.user_id db
          "Only admins can add authorized roles"
          "Only admins can add authorized roles" with
      | some e => simp [hmp] at htx
      | none =>
          simp only [hmp] at htx
          split at htx
          · simp at htx
          · cases hex : findAuthRole db gid rid with
            | some a => simp [hex] at htx
            | none =>
                simp only [hex, Except.ok.injEq] at htx
                subst htx
                simp at hr
                subst hr
                rfl

/-- Witness for `C4_first_matching_record` at a single matching record. -/
theorem C4_first_matching_record_witness :
    (read_guild (some ⟨5, 1, "T", none⟩) 2 none [⟨5, "R1", .USER, 10, 1⟩]
        (.ok ["R1"]) none .fail =
      .ok (AuthRole.permission_level ⟨5, "R1", .USER, 10, 1⟩).value) ∧
    ∀ gid rid cur guild db dbNow tx,
      add_authorized_role gid rid cur guild db dbNow = .ok tx →
      ∀ r ∈ tx.newAuthRoles, r.permission_level = .USER :=
  C4_first_matching_record ⟨5, 1, "T", none⟩ 2 [⟨5, "R1", .USER, 10, 1⟩]
    ["R1"] none .fail ⟨5, "R1", .USER, 10, 1⟩ (by decide) (by decide)

/-- Inversion of a successful `add_authorized_user`: the staged transaction
holds exactly the new authority row and its audit entry, and the target was
not yet authorized. -/
lemma add_authorized_user_ok (guild_id req_user_id : Nat) (cur : CurrentUser)
    (guild : Option GuildRec) (db : DbState)
    (stub : String × String × Option String) (tx : PendingTx)
    (h : add_authorized_user guild_id req_user_id cur guild db stub = .ok tx) :
    tx.newAuthUsers =
      [{ guild_id := guild_id, user_id := req_user_id,
         permission_level := .USER, created_by := cur.user_id }] ∧
    tx.delAuthUsers = [] ∧
    tx.newLogs =
      [{ guild_id := guild_id, user_id := cur.user_id,
         action := "ADD_AUTHORIZED_USER",
         details := [("added_user_id", toString req_user_id)] }] ∧
    findAuthUser db guild_id req_user_id = none := by
  unfold add_authorized_user at h
  split at h
  · simp at h
  · rename_i gg
    cases hmp : mutationPermCheck guild_id gg cur.user_id db
        "You do not have permission to add users" "Only admins can add users" with
    | some e => simp [hmp] at h
    | none =>
        simp only [hmp] at h
        cases hfa : findAuthUser db guild_id req_user_id with
        | some a => simp [hfa] at h
        | none =>
            simp only [hfa, Except.ok.injEq] at h
            subst h
            exact ⟨rfl, rfl, rfl, rfl⟩

/-- Inversion of a successful `remove_authorized_user`: the staged
transaction deletes exactly the found authority row and appends its audit
entry. -/
lemma remove_authorized_user_ok (guild_id target_user_id : Nat)
    (cur : CurrentUser) (guild : Option GuildRec) (db : DbState)
    (tx : PendingTx)
    (h : remove_authorized_user guild_id target_user_id cur guild db = .ok tx) :
    ∃ target, findAuthUser db guild_id target_user_id = some target ∧
      tx.delAuthUsers = [target] ∧ tx.newAuthUsers = [] ∧
      tx.newLogs =
        [{ guild_id := guild_id, user_id := cur.user_id,
           action := "REMOVE_AUTHORIZED_USER",
           details := [("removed_user_id", toString target_user_id)] }] := by
  unfold remove_authorized_user at h
  split at h
  · simp at h
  · rename_i gg
    cases hmp : mutationPermCheck guild_id gg cur.user_id db
        "You do not have permission to remove users"
        "Only admins can remove users" with
    | some e => simp [hmp] at h
    | none =>
        simp only [hmp] at h
        cases hfa : findAuthUser db guild_id target_user_id with
        | none => simp [hfa] at h
        | some target =>
            simp only [hfa] at h
            split at h
            · simp at h
            · simp only [Except.ok.injEq] at h
              subst h
              exact ⟨target, rfl, rfl, rfl, rfl⟩

/-- Inversion of a successful `add_authorized_role`: the staged
transaction holds exactly the new role record and its audit entry, and the
role was not yet authorized. -/
lemma add_authorized_role_ok (guild_id : Nat) (req_role_id : String)
    (cur : CurrentUser) (guild : Option GuildRec) (db : DbState)
    (dbNow : Int) (tx : PendingTx)
    (h : add_authorized_role guild_id req_role_id cur guild db dbNow = .ok tx) :
    tx.newAuthRoles =
      [{ guild_id := guild_id, role_id := req_role_id,
         permission_level := .USER, created_at := dbNow,
         created_by := cur.user_id }] ∧
    tx.delAuthRoles = [] ∧
    tx.newLogs =
      [{ guild_id := guild_id, user_id := cur.user_id,
         action := "ADD_AUTHORIZED_ROLE",
         details := [("role_id", req_role_id)] }] ∧
    findAuthRole db guild_id req_role_id = none := by
  unfold add_authorized_role at h
  split at h
  · simp at h
  · rename_i gg
    cases hmp : mutationPermCheck guild_id gg cur.user_id db
        "Only admins can add authorized roles"
        "Only admins can add authorized roles" with
    | some e => simp [hmp] at h
    | none =>
        simp only [hmp] at h
        split at h
        · simp at h
        · cases hex : findAuthRole db guild_id req_role_id with
          | some a => simp [hex] at h
          | none =>
              simp only [hex, Except.ok.injEq] at h
              subst h
              exact ⟨rfl, rfl, rfl, rfl⟩

/-- Inversion of a successful `remove_authorized_role`: the staged
transaction deletes exactly the found role record and appends its audit
entry. -/
lemma remove_authorized_role_ok (guild_id : Nat) (role_id : String)
    (cur : CurrentUser) (guild : Option GuildRec) (db : DbState)
    (tx : PendingTx)
    (h : remove_authorized_role guild_id role_id cur guild db = .ok tx) :
    ∃ target, findAuthRole db guild_id role_id = some target ∧
      tx.delAuthRoles = [target] ∧ tx.newAuthRoles = [] ∧
      tx.newLogs =
        [{ guild_id := guild_id, user_id := cur.user_id,
           action := "REMOVE_AUTHORIZED_ROLE",
           details := [("role_id", role_id)] }] := by
  unfold remove_authorized_role at h
  split at h
  · simp at h
  · rename_i gg
    cases hmp : mutationPermCheck guild_id gg cur.user_id db
        "Only admins can remove authorized roles"
        "Only admins can remove authorized roles" with
    | some e => simp [hmp] at h
    | none =>
        simp only [hmp] at h
        cases hex : findAuthRole db guild_id role_id with
        | none => simp [hex] at h
        | some target =>
            simp only [hex, Except.ok.injEq] at h
            subst h
            exact ⟨target, rfl, rfl, rfl, rfl⟩

/-- C8: every grant/revoke of an authority record — adding or removing an
authorized user or an authorized role — stages the authority mutation
together with its audit-log append and commits them with one
`await db.commit()`: a failed commit — in particular a failed audit
insert — rolls the whole transaction back leaving the database unchanged,
and under any commit outcome the authority change is visible only together
with its audit entry. -/
theorem C8_audit_in_same_transaction
    (guild_id req_user_id target_user_id : Nat)
    (req_role_id rem_role_id : String) (dbNow : Int) (cur : CurrentUser)
    (guild : Option GuildRec) (db : DbState)
    (stub : String × String × Option String) :
    (∀ tx, add_authorized_user guild_id req_user_id cur guild db stub = .ok tx →
      commitTx db tx false = db ∧
      ∀ ok r, r ∈ (commitTx db tx ok).authorized_users →
        r.guild_id = guild_id → r.user_id = req_user_id →
        ({ guild_id := guild_id, user_id := cur.user_id,
           action := "ADD_AUTHORIZED_USER",
           details := [("added_user_id", toString req_user_id)] } : AuditRec) ∈
          (commitTx db tx ok).audit_logs) ∧
    (∀ tx, remove_authorized_user guild_id target_user_id cur guild db = .ok tx →
      commitTx db tx false = db ∧
      ∀ target, findAuthUser db guild_id target_user_id = some target →
        ∀ ok, target ∉ (commitTx db tx ok).authorized_users →
          ({ guild_id := guild_id, user_id := cur.user_id,
             action := "REMOVE_AUTHORIZED_USER",
             details := [("removed_user_id", toString target_user_id)] } : AuditRec) ∈
            (commitTx db tx ok).audit_logs) ∧
    (∀ tx, add_authorized_role guild_id req_role_id cur guild db dbNow = .ok tx →
      commitTx db tx false = db ∧
      ∀ ok r, r ∈ (commitTx db tx ok).authorized_roles →
        r.guild_id = guild_id → r.role_id = req_role_id →
        ({ guild_id := guild_id, user_id := cur.user_id,
           action := "ADD_AUTHORIZED_ROLE",
           details := [("role_id", req_role_id)] } : AuditRec) ∈
          (commitTx db tx ok).audit_logs) ∧
    (∀ tx, remove_authorized_role guild_id rem_role_id cur guild db = .ok tx →
      commitTx db tx false = db ∧
      ∀ target, findAuthRole db guild_id rem_role_id = some target →
        ∀ ok, target ∉ (commitTx db tx ok).authorized_roles →
          ({ guild_id := guild_id, user_id := cur.user_id,
             action := "REMOVE_AUTHORIZED_ROLE",
             details := [("role_id", rem_role_id)] } : AuditRec) ∈
            (commitTx db tx ok).audit_logs) := by
  refine ⟨?_, ?_, ?_, ?_⟩
  · intro tx htx
    obtain ⟨hnew, hdel, hlog, hfa⟩ :=
      add_authorized_user_ok guild_id req_user_id cur guild db stub tx htx
    refine ⟨rfl, ?_⟩
    intro ok r hr hg hu
    cases ok with
    | false =>
        exfalso
        rw [findAuthUser, List.find?_eq_none] at hfa
        have hrdb : r ∈ db.authorized_users := by
          simpa [commitTx] using hr
        exact hfa r hrdb (by simp [hg, hu])
    | true =>
        simp [commitTx, applyTx, hlog]
  · intro tx htx
    obtain ⟨target, hfa, hdel, hnew, hlog⟩ :=
      remove_authorized_user_ok guild_id target_user_id cur guild db tx htx
    refine ⟨rfl, ?_⟩
    intro t hft ok hnot
    rw [hfa, Option.some.injEq] at hft
    subst hft
    cases ok with
    | false =>
        exact absurd
          (by simpa [commitTx] using
            List.mem_of_find?_eq_some (by simpa [findAuthUser] using hfa))
          hnot
    | true =>
        simp [commitTx, applyTx, hlog]
  · intro tx htx
    obtain ⟨hnew, hdel, hlog, hfa⟩ :=
      add_authorized_role_ok guild_id req_role_id cur guild db dbNow tx htx
    refine ⟨rfl, ?_⟩
    intro ok r hr hg hu
    cases ok with
    | false =>
        exfalso
        rw [findAuthRole, List.find?_eq_none] at hfa
        have hrdb : r ∈ db.authorized_roles := by
          simpa [commitTx] using hr
        exact hfa r hrdb (by simp [hg, hu])
    | true =>
        simp [commitTx, applyTx, hlog]
  · intro tx htx
    obtain ⟨target, hfa, hdel, hnew, hlog⟩ :=
      remove_authorized_role_ok guild_id rem_role_id cur guild db tx htx
    refine ⟨rfl, ?_⟩
    intro t hft ok hnot
    rw [hfa, Option.some.injEq] at hft
    subst hft
    cases ok with
    | false =>
        exact absurd
          (by simpa [commitTx] using
            List.mem_of_find?_eq_some (by simpa [findAuthRole] using hfa))
          hnot
    | true =>
        simp [commitTx, applyTx, hlog]

/-- Witness for `C8_audit_in_same_transaction`: guild 5 owned by user 1
(the requester); user 9 is currently authorized and gets removed, user 3
gets added, role "R7" is currently authorized and gets removed, role "R9"
gets added. -/
theorem C8_audit_in_same_transaction_witness :
    commitTx ⟨[], [⟨5, 9, .USER, 1⟩], [⟨5, "R7", .USER, 0, 1⟩], []⟩
        ⟨[⟨3, "u", "0", none⟩], [⟨5, 3, .USER, 1⟩], [], [], [],
         [⟨5, 1, "ADD_AUTHORIZED_USER", [("added_user_id", toString 3)]⟩]⟩
        false = ⟨[], [⟨5, 9, .USER, 1⟩], [⟨5, "R7", .USER, 0, 1⟩], []⟩ ∧
    (⟨5, 1, "ADD_AUTHORIZED_USER", [("added_user_id", toString 3)]⟩ : AuditRec) ∈
      (commitTx ⟨[], [⟨5, 9, .USER, 1⟩], [⟨5, "R7", .USER, 0, 1⟩], []⟩
        ⟨[⟨3, "u", "0", none⟩], [⟨5, 3, .USER, 1⟩], [], [], [],
         [⟨5, 1, "ADD_AUTHORIZED_USER", [("added_user_id", toString 3)]⟩]⟩
        true).audit_logs ∧
    (⟨5, 1, "REMOVE_AUTHORIZED_USER", [("removed_user_id", toString 9)]⟩ : AuditRec) ∈
      (commitTx ⟨[], [⟨5, 9, .USER, 1⟩], [⟨5, "R7", .USER, 0, 1⟩], []⟩
        ⟨[], [], [⟨5, 9, .USER, 1⟩], [], [],
         [⟨5, 1, "REMOVE_AUTHORIZED_USER", [("removed_user_id", toString 9)]⟩]⟩
        true).audit_logs ∧
    (⟨5, 1, "ADD_AUTHORIZED_ROLE", [("role_id", "R9")]⟩ : AuditRec) ∈
      (commitTx ⟨[], [⟨5, 9, .USER, 1⟩], [⟨5, "R7", .USER, 0, 1⟩], []⟩
        ⟨[], [], [], [⟨5, "R9", .USER, 42, 1⟩], [],
         [⟨5, 1, "ADD_AUTHORIZED_ROLE", [("role_id", "R9")]⟩]⟩
        true).audit_logs ∧
    (⟨5, 1, "REMOVE_AUTHORIZED_ROLE", [("role_id", "R7")]⟩ : AuditRec) ∈
      (commitTx ⟨[], [⟨5, 9, .USER, 1⟩], [⟨5, "R7", .USER, 0, 1⟩], []⟩
        ⟨[], [], [], [], [⟨5, "R7", .USER, 0, 1⟩],
         [⟨5, 1, "REMOVE_AUTHORIZED_ROLE", [("role_id", "R7")]⟩]⟩
        true).audit_logs := by
  have h := C8_audit_in_same_transaction 5 3 9 "R9" "R7" 42
    (.session ⟨1, "a", none, none⟩) (some ⟨5, 1, "T", none⟩)
    ⟨[], [⟨5, 9, .USER, 1⟩], [⟨5, "R7", .USER, 0, 1⟩], []⟩ ("u", "0", none)
  have hA := h.1
    ⟨[⟨3, "u", "0", none⟩], [⟨5, 3, .USER, 1⟩], [], [], [],
     [⟨5, 1, "ADD_AUTHORIZED_USER", [("added_user_id", toString 3)]⟩]⟩
    rfl
  have hR := h.2.1
    ⟨[], [], [⟨5, 9, .USER, 1⟩], [], [],
     [⟨5, 1, "REMOVE_AUTHORIZED_USER", [("removed_user_id", toString 9)]⟩]⟩
    rfl
  have hAR := h.2.2.1
    ⟨[], [], [], [⟨5, "R9", .USER, 42, 1⟩], [],
     [⟨5, 1, "ADD_AUTHORIZED_ROLE", [("role_id", "R9")]⟩]⟩
    rfl
  have hRR := h.2.2.2
    ⟨[], [], [], [], [⟨5, "R7", .USER, 0, 1⟩],
     [⟨5, 1, "REMOVE_AUTHORIZED_ROLE", [("role_id", "R7")]⟩]⟩
    rfl
  exact ⟨hA.1, hA.2 true ⟨5, 3, .USER, 1⟩ (by decide) rfl rfl,
    hR.2 ⟨5, 9, .USER, 1⟩ (by decide) true (by decide),
    hAR.2 true ⟨5, "R9", .USER, 42, 1⟩ (by decide) rfl rfl,
    hRR.2 ⟨5, "R7", .USER, 0, 1⟩ (by decide) true (by decide)⟩

/-- C1 counterexample: two concurrent callers against the session
`⟨1, "a", some "r", some 101⟩` expiring in 1 second (now = 100).  Under the
interleaving read-A, read-B, refresh-A, refresh-B both tasks read the
session before either refresh is written, so TWO upstream refresh calls
are issued for the one token — not exactly one — and both tasks complete. -/
theorem C1_counterexample_two_refreshes :
    (runRace ⟨100, .ok "a2" (some "r2") (some 604800)⟩ [true, false, true, false]
        (raceInit ⟨1, "a", some "r", some 101⟩)).refreshCalls = 2 ∧
    (runRace ⟨100, .ok "a2" (some "r2") (some 604800)⟩ [true, false, true, false]
        (raceInit ⟨1, "a", some "r", some 101⟩)).pcA = 2 ∧
    (runRace ⟨100, .ok "a2" (some "r2") (some 604800)⟩ [true, false, true, false]
        (raceInit ⟨1, "a", some "r", some 101⟩)).pcB = 2 ∧
    (2 : Nat) ≠ 1 := by
  decide

/-- A bundle refreshed with a lifetime of at least the safety margin is no
longer due for refresh. -/
lemma shouldRefresh_refreshedBundle (d0 : SessionData) (now : Int)
    (acc : String) (rt' : Option String) (ei : Option Nat)
    (hei : 300 ≤ ei.getD 604800) :
    shouldRefresh now (refreshedBundle d0 now acc rt' ei) = false := by
  simp only [shouldRefresh, refreshedBundle, safetyMargin,
    decide_eq_false_iff_not, not_lt]
  omega

/-- An expiring bundle differs from its refreshed replacement (the stored
expiry strictly grows when the refresh lifetime covers the margin). -/
lemma ne_refreshedBundle (d0 : SessionData) (now e0 : Int) (acc : String)
    (rt' : Option String) (ei : Option Nat)
    (hexp : d0.expires_at = some e0)
    (hsr : shouldRefresh now d0 = true)
    (hei : 300 ≤ ei.getD 604800) :
    d0 ≠ refreshedBundle d0 now acc rt' ei := by
  intro hcontra
  have hfield := congrArg SessionData.expires_at hcontra
  rw [hexp] at hfield
  simp only [refreshedBundle, Option.some.injEq] at hfield
  rw [shouldRefresh, hexp] at hsr
  simp only [safetyMargin, decide_eq_true_eq] at hsr
  omega

/-- Reachability invariant of the two-task refresh race from the expiring
bundle `d0`, with `r` the refreshed bundle written by whichever task
refreshes: the shared key always holds a whole bundle (`d0` or `r`), `r`
is stored iff at least one refresh was issued, every started task holds a
whole bundle locally, every finished task holds `r`, and the refresh count
is bounded by the number of finished tasks. -/
def raceInv (d0 r : SessionData) (s : RaceState) : Prop :=
  (s.store = some d0 ∨ s.store = some r) ∧
  (s.store = some r ↔ 1 ≤ s.refreshCalls) ∧
  s.pcA ≤ 2 ∧ s.pcB ≤ 2 ∧
  (1 ≤ s.pcA → s.localA = some d0 ∨ s.localA = some r) ∧
  (1 ≤ s.pcB → s.localB = some d0 ∨ s.localB = some r) ∧
  (s.pcA = 2 → s.localA = some r) ∧
  (s.pcB = 2 → s.localB = some r) ∧
  (s.localA = some r → 1 ≤ s.refreshCalls) ∧
  (s.localB = some r → 1 ≤ s.refreshCalls) ∧
  s.refreshCalls ≤
    (if s.pcA = 2 then 1 else 0) + (if s.pcB = 2 then 1 else 0)

/-- One step of either task preserves the race invariant. -/
lemma raceStep_raceInv (d0 r : SessionData) (now : Int) (acc : String)
    (rt' : Option String) (ei : Option Nat)
    (hr : r = refreshedBundle d0 now acc rt' ei)
    (hsr : shouldRefresh now d0 = true)
    (hrt : d0.refresh_token.isSome = true)
    (hei : 300 ≤ ei.getD 604800)
    (w : Bool) (s : RaceState) (h : raceInv d0 r s) :
    raceInv d0 r (raceStep ⟨now, .ok acc rt' ei⟩ w s) := by
  have hsr2 : shouldRefresh now r = false := by
    rw [hr]
    exact shouldRefresh_refreshedBundle d0 now acc rt' ei hei
  obtain ⟨store, pcA, pcB, lA, lB, n⟩ := s
  obtain ⟨h1, h2, h3A, h3B, h4A, h4B, h5A, h5B, h6A, h6B, h7⟩ := h
  dsimp only at h1 h2 h3A h3B h4A h4B h5A h5B h6A h6B h7
  cases w
  case true =>
    rcases pcA with _ | _ | pcA'
    · -- task A reads the store
      have hstep : raceStep ⟨now, .ok acc rt' ei⟩ true
          ⟨store, 0, pcB, lA, lB, n⟩ = ⟨store, 1, pcB, store, lB, n⟩ := rfl
      rw [hstep]
      unfold raceInv
      dsimp only
      exact ⟨h1, h2, by omega, h3B, fun _ => h1, h4B,
        fun hh => absurd hh (by omega), h5B, fun hh => h2.mp hh, h6B,
        by rcases eq_or_ne pcB 2 with hb | hb <;> simp [hb] at h7 ⊢ <;> omega⟩
    · rcases h4A (by omega) with h4 | h4 <;> subst h4
      · -- A holds the stale bundle: it refreshes and writes
        have hstep : raceStep ⟨now, .ok acc rt' ei⟩ true
            ⟨store, 1, pcB, some d0, lB, n⟩ =
            ⟨some (refreshedBundle d0 now acc rt' ei), 2, pcB,
             some (refreshedBundle d0 now acc rt' ei), lB, n + 1⟩ := by
          simp [raceStep, hsr, hrt]
        rw [hstep, ← hr]
        unfold raceInv
        dsimp only
        exact ⟨Or.inr rfl, ⟨fun _ => by omega, fun _ => rfl⟩, by omega, h3B,
          fun _ => Or.inr rfl, h4B, fun _ => rfl, h5B, fun _ => by omega,
          fun _ => by omega, by rcases eq_or_ne pcB 2 with hb | hb <;> simp [hb] at h7 ⊢ <;> omega⟩
      · -- A already read the refreshed bundle: no second refresh
        have hstep : raceStep ⟨now, .ok acc rt' ei⟩ true
            ⟨store, 1, pcB, some r, lB, n⟩ =
            ⟨store, 2, pcB, some r, lB, n⟩ := by
          simp [raceStep, hsr2]
        rw [hstep]
        unfold raceInv
        dsimp only
        exact ⟨h1, h2, by omega, h3B, fun _ => Or.inr rfl, h4B, fun _ => rfl,
          h5B, fun _ => h6A rfl, h6B, by rcases eq_or_ne pcB 2 with hb | hb <;> simp [hb] at h7 ⊢ <;> omega⟩
    · -- task A already finished: no-op
      have hstep : raceStep ⟨now, .ok acc rt' ei⟩ true
          ⟨store, pcA' + 2, pcB, lA, lB, n⟩ =
          ⟨store, pcA' + 2, pcB, lA, lB, n⟩ := rfl
      rw [hstep]
      exact ⟨h1, h2, h3A, h3B, h4A, h4B, h5A, h5B, h6A, h6B, h7⟩
  case false =>
    rcases pcB with _ | _ | pcB'
    · -- task B reads the store
      have hstep : raceStep ⟨now, .ok acc rt' ei⟩ false
          ⟨store, pcA, 0, lA, lB, n⟩ = ⟨store, pcA, 1, lA, store, n⟩ := rfl
      rw [hstep]
      unfold raceInv
      dsimp only
      exact ⟨h1, h2, h3A, by omega, h4A, fun _ => h1, h5A,
        fun hh => absurd hh (by omega), h6A, fun hh => h2.mp hh,
        by rcases eq_or_ne pcA 2 with hb | hb <;> simp [hb] at h7 ⊢ <;> omega⟩
    · rcases h4B (by omega) with h4 | h4 <;> subst h4
      · -- B holds the stale bundle: it refreshes and writes
        have hstep : raceStep ⟨now, .ok acc rt' ei⟩ false
            ⟨store, pcA, 1, lA, some d0, n⟩ =
            ⟨some (refreshedBundle d0 now acc rt' ei), pcA, 2, lA,
             some (refreshedBundle d0 now acc rt' ei), n + 1⟩ := by
          simp [raceStep, hsr, hrt]
        rw [hstep, ← hr]
        unfold raceInv
        dsimp only
        exact ⟨Or.inr rfl, ⟨fun _ => by omega, fun _ => rfl⟩, h3A, by omega,
          h4A, fun _ => Or.inr rfl, h5A, fun _ => rfl, fun _ => by omega,
          fun _ => by omega, by rcases eq_or_ne pcA 2 with hb | hb <;> simp [hb] at h7 ⊢ <;> omega⟩
      · -- B already read the refreshed bundle: no second refresh
        have hstep : raceStep ⟨now, .ok acc rt' ei⟩ false
            ⟨store, pcA, 1, lA, some r, n⟩ =
            ⟨store, pcA, 2, lA, some r, n⟩ := by
          simp [raceStep, hsr2]
        rw [hstep]
        unfold raceInv
        dsimp only
        exact ⟨h1, h2, h3A, by omega, h4A, fun _ => Or.inr rfl, h5A,
          fun _ => rfl, h6A, fun _ => h6B rfl,
          by rcases eq_or_ne pcA 2 with hb | hb <;> simp [hb] at h7 ⊢ <;> omega⟩
    · -- task B already finished: no-op
      have hstep : raceStep ⟨now, .ok acc rt' ei⟩ false
          ⟨store, pcA, pcB' + 2, lA, lB, n⟩ =
          ⟨store, pcA, pcB' + 2, lA, lB, n⟩ := rfl
      rw [hstep]
      exact ⟨h1, h2, h3A, h3B, h4A, h4B, h5A, h5B, h6A, h6B, h7⟩

/-- The race invariant holds along every interleaving. -/
lemma runRace_raceInv (d0 r : SessionData) (now : Int) (acc : String)
    (rt' : Option String) (ei : Option Nat)
    (hr : r = refreshedBundle d0 now acc rt' ei)
    (hsr : shouldRefresh now d0 = true)
    (hrt : d0.refresh_token.isSome = true)
    (hei : 300 ≤ ei.getD 604800)
    (schedule : List Bool) (s : RaceState) (h : raceInv d0 r s) :
    raceInv d0 r (runRace ⟨now, .ok acc rt' ei⟩ schedule s) := by
  induction schedule generalizing s with
  | nil => exact h
  | cons w ws ih =>
      exact ih (raceStep ⟨now, .ok acc rt' ei⟩ w s)
        (raceStep_raceInv d0 r now acc rt' ei hr hsr hrt hei w s h)

/-- C1 amended: with no per-token lock, two concurrent callers that find
the credential expiring within the safety margin issue BETWEEN ONE AND TWO
upstream refresh calls (one per caller that reads the session before the
first refreshed bundle is written) — not exactly one; consistency still
holds: along every interleaving the shared key only ever holds a whole
pre-refresh or whole post-refresh bundle, and both callers, once finished,
observe the whole refreshed bundle. -/
theorem C1_concurrent_refresh_bounds (d0 : SessionData) (now e0 : Int)
    (acc : String) (rt' : Option String) (ei : Option Nat)
    (hexp : d0.expires_at = some e0)
    (hsr : shouldRefresh now d0 = true)
    (hrt : d0.refresh_token.isSome = true)
    (hei : 300 ≤ ei.getD 604800) :
    ∀ schedule : List Bool,
      ((runRace ⟨now, .ok acc rt' ei⟩ schedule (raceInit d0)).store = some d0 ∨
       (runRace ⟨now, .ok acc rt' ei⟩ schedule (raceInit d0)).store =
         some (refreshedBundle d0 now acc rt' ei)) ∧
      (runRace ⟨now, .ok acc rt' ei⟩ schedule (raceInit d0)).refreshCalls ≤ 2 ∧
      ((runRace ⟨now, .ok acc rt' ei⟩ schedule (raceInit d0)).pcA = 2 →
       (runRace ⟨now, .ok acc rt' ei⟩ schedule (raceInit d0)).pcB = 2 →
        1 ≤ (runRace ⟨now, .ok acc rt' ei⟩ schedule (raceInit d0)).refreshCalls ∧
        (runRace ⟨now, .ok acc rt' ei⟩ schedule (raceInit d0)).localA =
          some (refreshedBundle d0 now acc rt' ei) ∧
        (runRace ⟨now, .ok acc rt' ei⟩ schedule (raceInit d0)).localB =
          some (refreshedBundle d0 now acc rt' ei)) := by
  intro schedule
  have hne := ne_refreshedBundle d0 now e0 acc rt' ei hexp hsr hei
  have hinit : raceInv d0 (refreshedBundle d0 now acc rt' ei) (raceInit d0) := by
    unfold raceInv raceInit
    dsimp only
    exact ⟨Or.inl rfl,
      ⟨fun hh => absurd (Option.some.inj hh) hne, fun hh => absurd hh (by omega)⟩,
      by omega, by omega, fun hh => absurd hh (by omega),
      fun hh => absurd hh (by omega), fun hh => absurd hh (by omega),
      fun hh => absurd hh (by omega), fun hh => by simp at hh,
      fun hh => by simp at hh, Nat.zero_le _⟩
  have hinv := runRace_raceInv d0 (refreshedBundle d0 now acc rt' ei) now acc
    rt' ei rfl hsr hrt hei schedule (raceInit d0) hinit
  obtain ⟨h1, h2, _, _, _, _, h5A, h5B, h6A, _, h7⟩ := hinv
  refine ⟨h1, ?_, fun hA hB => ⟨h6A (h5A hA), h5A hA, h5B hB⟩⟩
  rcases eq_or_ne (runRace ⟨now, .ok acc rt' ei⟩ schedule (raceInit d0)).pcA 2
      with ha | ha <;>
    rcases eq_or_ne (runRace ⟨now, .ok acc rt' ei⟩ schedule (raceInit d0)).pcB 2
        with hb | hb <;>
      simp [ha, hb] at h7 <;> omega

/-- Witness for `C1_concurrent_refresh_bounds` at the counterexample's
session and a fully sequential interleaving. -/
theorem C1_concurrent_refresh_bounds_witness :
    ((runRace ⟨100, .ok "a2" (some "r2") (some 604800)⟩ [true, true, false, false]
        (raceInit ⟨1, "a", some "r", some 101⟩)).store =
       some ⟨1, "a", some "r", some 101⟩ ∨
     (runRace ⟨100, .ok "a2" (some "r2") (some 604800)⟩ [true, true, false, false]
        (raceInit ⟨1, "a", some "r", some 101⟩)).store =
       some (refreshedBundle ⟨1, "a", some "r", some 101⟩ 100 "a2" (some "r2")
         (some 604800))) ∧
    (runRace ⟨100, .ok "a2" (some "r2") (some 604800)⟩ [true, true, false, false]
        (raceInit ⟨1, "a", some "r", some 101⟩)).refreshCalls ≤ 2 ∧
    ((runRace ⟨100, .ok "a2" (some "r2") (some 604800)⟩ [true, true, false, false]
        (raceInit ⟨1, "a", some "r", some 101⟩)).pcA = 2 →
     (runRace ⟨100, .ok "a2" (some "r2") (some 604800)⟩ [true, true, false, false]
        (raceInit ⟨1, "a", some "r", some 101⟩)).pcB = 2 →
      1 ≤ (runRace ⟨100, .ok "a2" (some "r2") (some 604800)⟩
        [true, true, false, false]
        (raceInit ⟨1, "a", some "r", some 101⟩)).refreshCalls ∧
      (runRace ⟨100, .ok "a2" (some "r2") (some 604800)⟩ [true, true, false, false]
        (raceInit ⟨1, "a", some "r", some 101⟩)).localA =
        some (refreshedBundle ⟨1, "a", some "r", some 101⟩ 100 "a2" (some "r2")
          (some 604800)) ∧
      (runRace ⟨100, .ok "a2" (some "r2") (some 604800)⟩ [true, true, false, false]
        (raceInit ⟨1, "a", some "r", some 101⟩)).localB =
        some (refreshedBundle ⟨1, "a", some "r", some 101⟩ 100 "a2" (some "r2")
          (some 604800))) :=
  C1_concurrent_refresh_bounds ⟨1, "a", some "r", some 101⟩ 100 101 "a2"
    (some "r2") (some 604800) rfl (by decide) rfl (by decide)
    [true, true, false, false]

end Baseline
